import Mathlib

/-!
Verification of the hypermedia REST client in `utils/api.py` against its
natural-language specification.  The Python classes (`API`, `Collection`,
`Entity`, `ActionContainer`, `Action`, `SearchResult`) are shallowly embedded:
JSON documents become an inductive value type, Python exceptions become an
error type threaded through `Except`, and each method becomes a Lean
function faithful to the source, including the order of dictionary lookups
and the exact exception raised on each failure path.
-/

set_option autoImplicit false

namespace RestApi

/-- A decoded JSON value (`data.json()` result).  Objects model Python dicts
as association lists; keys of a decoded JSON object are distinct. -/
inductive JVal where
  | jnull
  | jbool (b : Bool)
  | jnum (n : Int)
  | jstr (s : String)
  | jarr (elems : List JVal)
  | jobj (fields : List (String × JVal))

/-- The Python exceptions the client can raise.  `apiError` is
`APIException` from `utils/api.py`; the others are built-in Python
exceptions (`KeyError`, `TypeError`, `ValueError`, `AttributeError`,
`NotImplementedError`).  Only `apiError` is caught by
`except APIException` clauses. -/
inductive PyErr where
  | apiError (msg : String)
  | keyError (k : String)
  | typeError (msg : String)
  | valueError (msg : String)
  | attributeError (msg : String)
  | notImplementedError
  deriving DecidableEq, Repr

/-- Python attribute/dict storage: the first binding for a key wins on
lookup (a dict never holds two bindings for one key). -/
def pyGetattr {α : Type} : List (String × α) → String → Option α
  | [], _ => none
  | (k, v) :: rest, a => if k = a then some v else pyGetattr rest a

/-- `setattr` / dict assignment: replace the binding if the key is present,
otherwise append it. -/
def pySetattr {α : Type} : List (String × α) → String → α → List (String × α)
  | [], a, v => [(a, v)]
  | (k, w) :: rest, a, v =>
      if k = a then (a, v) :: rest else (k, w) :: pySetattr rest a v

/-- Python subscription `d[k]` on a decoded JSON value: a `KeyError` when
the key is absent, a `TypeError` when the value is not an object. -/
def jLookup : JVal → String → Except PyErr JVal
  | .jobj fields, k =>
      match pyGetattr fields k with
      | some v => .ok v
      | none => .error (.keyError k)
  | _, _ => .error (.typeError "value is not subscriptable by string")

/-- Python `str()` of the scalar JSON values the client formats into hrefs
and filter strings (`str(value)` in `_find_by_sqlfilter` /
`_find_by_filter`, `"{}/{}".format(...)` in `get_entity`).  Containers
never reach these call sites in the client; their Python rendering is
abstracted by a fixed tag. -/
def pyToString : JVal → String
  | .jnull => "None"
  | .jbool true => "True"
  | .jbool false => "False"
  | .jnum n => toString n
  | .jstr s => s
  | .jarr _ => "<list>"
  | .jobj _ => "<dict>"

/-- Escape for Python `repr` of a string rendered between single quotes:
backslash and the single quote are escaped.  (Control-character escapes do
not occur in the values the claims exercise and are left unmodelled.) -/
def pyEscSingle (s : String) : String :=
  s.data.foldl
    (fun acc c =>
      acc ++ (if c = '\\' then "\\\\"
              else if c = '\x27' then "\\\x27"
              else String.singleton c))
    ""

/-- Escape for Python `repr` of a string rendered between double quotes
(chosen when the string holds a single quote but no double quote):
only the backslash is escaped. -/
def pyEscDouble (s : String) : String :=
  s.data.foldl
    (fun acc c => acc ++ (if c = '\\' then "\\\\" else String.singleton c))
    ""

/-- Python `repr` of a string: single-quoted, unless the string contains a
single quote and no double quote, in which case it is double-quoted. -/
def pyReprStr (s : String) : String :=
  if s.data.contains '\x27' && !(s.data.contains '"') then
    "\"" ++ pyEscDouble s ++ "\""
  else
    "\x27" ++ pyEscSingle s ++ "\x27"

/-! ### Version model

`utils/version.py` (`LooseVersion` with `is_in_series`) is not among the
provided sources, so it is modelled from the spec.

Modelled from the spec: "version strings are compared using a lenient,
dotted-numeric ordering (loose version semantics: numeric components
compare numerically, non-numeric suffixes compare lexically)"; a version
is a sequence of components, each a number or a non-numeric chunk, and
comparison is lexicographic over components (a numeric component orders
before a textual one, and a strict prefix orders before its extension).
`is_in_series s` holds when the version's components start with the
components of `s`. -/
inductive VPart where
  | num (n : Nat)
  | txt (s : String)
  deriving DecidableEq, Repr

/-- A parsed loose version: its component list. -/
abbrev Version := List VPart

/-- Strict comparison of single version components. -/
def vpartLt : VPart → VPart → Bool
  | .num a, .num b => a < b
  | .txt a, .txt b => compare a b == .lt
  | .num _, .txt _ => true
  | .txt _, .num _ => false

/-- Strict lexicographic comparison of component lists. -/
def versionLt : Version → Version → Bool
  | [], [] => false
  | [], _ :: _ => true
  | _ :: _, [] => false
  | a :: as, b :: bs => if a = b then versionLt as bs else vpartLt a b

/-- `LooseVersion.__ge__`. -/
def versionGe (a b : Version) : Bool := !versionLt a b

/-- Does the version's component list start with the series components? -/
def versionStartsWith : Version → Version → Bool
  | _, [] => true
  | [], _ :: _ => false
  | a :: as, b :: bs => a = b && versionStartsWith as bs

/-- `LooseVersion.is_in_series`, modelled from the spec: the version lies
in the series when its components extend the series components. -/
def versionInSeries (v series : Version) : Bool := versionStartsWith v series

/-- `LooseVersion("1.0")`. -/
def v1_0 : Version := [.num 1, .num 0]

/-- `LooseVersion("1.1")`. -/
def v1_1 : Version := [.num 1, .num 1]

/-- `LooseVersion("2.0.0")`. -/
def v2_0_0 : Version := [.num 2, .num 0, .num 0]

/-- `LooseVersion("2.0.0-pre")`. -/
def v2_0_0_pre : Version := [.num 2, .num 0, .num 0, .txt "-", .txt "pre"]

/-! ### The API object -/

/-- The state of an `API` instance a claim needs: its entry point and its
resolved version.  (Credentials and the version map do not influence any
claim.) -/
structure ApiCfg where
  entryPoint : String
  version : Version

/-- `API.new_id_behaviour`: true when the resolved version is at least
2.0.0. -/
def ApiCfg.newIdBehaviour (api : ApiCfg) : Bool :=
  versionGe api.version v2_0_0

/-- An HTTP response as the `requests` library hands it back: the raw body
text, and the decoded JSON value when `data.json()` succeeds (`none` when
it raises `JSONDecodeError`). -/
structure HttpResponse where
  text : String
  json : Option JVal

/-- `API._result_processor`: a decoded dict carrying an `error` key is
turned into an `APIException` naming the remote klass and message; any
other value passes through. -/
def resultProcessor (result : JVal) : Except PyErr JVal :=
  match result with
  | .jobj fields =>
      if (pyGetattr fields "error").isSome then
        match jLookup (.jobj fields) "error" with
        | .error e => .error e
        | .ok errObj =>
            match jLookup errObj "klass" with
            | .error e => .error e
            | .ok k =>
                match jLookup errObj "message" with
                | .error e => .error e
                | .ok m =>
                    .error (.apiError (pyToString k ++ ": " ++ pyToString m))
      else .ok (.jobj fields)
  | r => .ok r

/-- `API.get`: always decode; a decode failure is an `APIException`
carrying the raw text; a successful decode runs the result processor. -/
def apiGet (resp : HttpResponse) : Except PyErr JVal :=
  match resp.json with
  | some j => resultProcessor j
  | none => .error (.apiError ("JSONDecodeError: " ++ resp.text))

/-- `len(text.strip()) == 0` in Python: every character of the body is
whitespace (equivalently, stripping both ends leaves nothing). -/
def pyStripEmpty (s : String) : Bool :=
  s.data.all Char.isWhitespace

/-- `API.post`: a decode failure on an empty (whitespace-only) body yields
`None`; on a non-empty body it is an `APIException` carrying the raw text;
a successful decode runs the result processor. -/
def apiPost (resp : HttpResponse) : Except PyErr (Option JVal) :=
  match resp.json with
  | some j =>
      match resultProcessor j with
      | .ok r => .ok (some r)
      | .error e => .error e
  | none =>
      if pyStripEmpty resp.text then .ok none
      else .error (.apiError ("JSONDecodeError: " ++ resp.text))

/-- `API.delete`: identical response handling to `API.post`. -/
def apiDelete (resp : HttpResponse) : Except PyErr (Option JVal) :=
  match resp.json with
  | some j =>
      match resultProcessor j with
      | .ok r => .ok (some r)
      | .error e => .error e
  | none =>
      if pyStripEmpty resp.text then .ok none
      else .error (.apiError ("JSONDecodeError: " ++ resp.text))

/-- One string occurs inside another. -/
def StrContains (hay needle : String) : Prop :=
  ∃ pre post, hay = pre ++ needle ++ post

/-! ### Entity -/

/-- A value stored as a dynamic attribute of an `Entity` by
`Entity.reload`: a JSON value copied through, the `iso8601.parse_date`
result of a time field (the external date parser is abstracted: the value
is kept tagged), or the stub `Entity` synthesized for a foreign-key field
by `API.get_entity` (determined by its target collection name, the
collection href, and the stub href; a stub has no data and no dynamic
attributes). -/
inductive AttrVal where
  | val (v : JVal)
  | date (v : JVal)
  | entityStub (colName colHref href : String)

/-- The state of an `Entity`: its `_href` (a JSON value — the legacy id
behaviour stores the numeric `id` there), its `_data` snapshot (`None`
for a stub), its `_actions`, and its dynamic attributes. -/
structure EntityState where
  href : JVal
  data : Option JVal
  actions : JVal
  attrs : List (String × AttrVal)

/-- `Entity.TIME_FIELDS`. -/
def TIME_FIELDS : List String :=
  ["updated_on", "created_on", "last_scan_attempt_on", "state_changed_on",
   "lastlogon", "updated_at", "created_at"]

/-- `Entity.COLLECTION_MAPPING`. -/
def COLLECTION_MAPPING : List (String × String) :=
  [("ems_id", "providers"), ("storage_id", "data_stores"), ("zone_id", "zones"),
   ("host_id", "hosts"), ("current_group_id", "groups"),
   ("miq_user_role_id", "roles")]

/-- `re.sub(r"_id$", "", key)`: drop a final `_id` when present. -/
def stripIdSuffix (k : String) : String :=
  if ['_', 'i', 'd'].isSuffixOf k.data then
    String.mk (k.data.take (k.data.length - 3))
  else k

/-- The key `Entity.reload` resolves the identity from:
`"id" if not new_id_behaviour else "href"`. -/
def identKey (api : ApiCfg) : String :=
  if api.newIdBehaviour then "href" else "id"

/-- One iteration of the field loop in `Entity.reload`: a time field is
stored date-parsed; a recognized foreign-key field stores the de-suffixed
stub reference (via `API.get_entity`) and then the raw id value; any other
field is copied through. -/
def applyField (api : ApiCfg) (attrs : List (String × AttrVal)) (k : String)
    (v : JVal) : List (String × AttrVal) :=
  if k ∈ TIME_FIELDS then
    pySetattr attrs k (.date v)
  else
    match pyGetattr COLLECTION_MAPPING k with
    | some target =>
        let colHref := api.entryPoint ++ "/" ++ target
        pySetattr
          (pySetattr attrs (stripIdSuffix k)
            (.entityStub target colHref (colHref ++ "/" ++ pyToString v)))
          k (.val v)
    | none => pySetattr attrs k (.val v)

/-- The body of `Entity.reload` applied to a fetched (or already held)
document `d`: resolve `_href` from the identity key (a `KeyError` when it
is absent, a `TypeError` when `d` is no object), pop `actions` (default
`[]`), then run the field loop over the remaining fields on top of the
existing attributes (`setattr` overwrites but never deletes). -/
def entityApplyDoc (api : ApiCfg) (e : EntityState) (d : JVal) :
    Except PyErr EntityState :=
  match d with
  | .jobj fields =>
      match pyGetattr fields (identKey api) with
      | none => .error (.keyError (identKey api))
      | some ident =>
          let acts := (pyGetattr fields "actions").getD (.jarr [])
          let rest := fields.filter (fun kv => kv.1 != "actions")
          .ok { href := ident
                data := some (.jobj rest)
                actions := acts
                attrs := rest.foldl (fun acc kv => applyField api acc kv.1 kv.2) e.attrs }
  | _ => .error (.typeError "reload data is not a JSON object")

/-- `Entity.__init__` / `Entity._load_data`: complete data (an `id` key)
runs `reload(get=False)` on it; an href-only document yields a stub with
no data and no dynamic attributes; anything else is malformed
(`ValueError`; the source message also embeds the repr of the data). -/
def entityInit (api : ApiCfg) (d : JVal) : Except PyErr EntityState :=
  match d with
  | .jobj fields =>
      if (pyGetattr fields "id").isSome then
        entityApplyDoc api ⟨.jnull, some (.jobj fields), .jarr [], []⟩ (.jobj fields)
      else
        match pyGetattr fields "href" with
        | some h => .ok ⟨h, none, .jarr [], []⟩
        | none => .error (.valueError "Malformed data")
  | _ => .error (.typeError "argument is not a mapping")

/-- `n` successive `Entity.reload()` calls against a server that answers
every GET with the same document `doc`. -/
def entityReloads (api : ApiCfg) (doc : JVal) : Nat → EntityState → Except PyErr EntityState
  | 0, e => .ok e
  | n + 1, e =>
      match entityApplyDoc api e doc with
      | .ok e2 => entityReloads api doc n e2
      | .error err => .error err

/-- `Entity.__getattr__` together with Python's attribute lookup: a hit on
the dynamic attributes returns it; a miss with data present raises
`AttributeError`; a miss on a stub reloads once (the GET returning
`serverDoc`) and retries the lookup exactly once.  Returns the outcome,
the number of reloads performed, and the resulting entity state. -/
def entityGetattr (api : ApiCfg) (e : EntityState) (serverDoc : JVal)
    (attr : String) : Except PyErr AttrVal × Nat × EntityState :=
  match pyGetattr e.attrs attr with
  | some v => (.ok v, 0, e)
  | none =>
      match e.data with
      | some _ => (.error (.attributeError ("No such attribute " ++ attr)), 0, e)
      | none =>
          match entityApplyDoc api e serverDoc with
          | .error err => (.error err, 1, e)
          | .ok e2 =>
              match pyGetattr e2.attrs attr with
              | some v => (.ok v, 1, e2)
              | none =>
                  (.error (.attributeError ("No such attribute " ++ attr)), 1, e2)

/-! ### Collection -/

/-- The state of a `Collection`: construction arguments plus the fields
`reload` assigns (absent before the first reload). -/
structure CollectionState where
  name : String
  description : Option String
  href : String
  data : Option JVal
  resources : Option JVal
  count : Option JVal
  subcount : Option JVal
  actions : Option JVal

/-- `Collection(api, href, name, description)`. -/
def collectionInit (href name : String) (description : Option String) :
    CollectionState :=
  ⟨name, description, href, none, none, none, none, none⟩

/-- Is this JSON value exactly the given Python string?  (`!=` between a
decoded JSON value and a Python `str` is an inequality of values; any
non-string JSON value is unequal to every string.) -/
def jvalIsStr (v : JVal) (s : String) : Bool :=
  match v with
  | .jstr t => t = s
  | _ => false

/-- `Collection.reload` applied to the document the GET returned: store
`resources`, `count`, `subcount` (a `KeyError` when absent), pop `actions`
(default `[]`), and finally raise `ValueError("Name mishap!")` when the
server-reported `name` differs from the locally held one. -/
def collectionReload (c : CollectionState) (doc : JVal) :
    Except PyErr CollectionState :=
  match jLookup doc "resources" with
  | .error e => .error e
  | .ok res =>
  match jLookup doc "count" with
  | .error e => .error e
  | .ok cnt =>
  match jLookup doc "subcount" with
  | .error e => .error e
  | .ok sub =>
  match doc with
  | .jobj fields =>
      let acts := (pyGetattr fields "actions").getD (.jarr [])
      let rest := fields.filter (fun kv => kv.1 != "actions")
      match pyGetattr rest "name" with
      | none => .error (.keyError "name")
      | some nm =>
          if jvalIsStr nm c.name then
            .ok { c with data := some (.jobj rest), resources := some res,
                         count := some cnt, subcount := some sub,
                         actions := some acts }
          else .error (.valueError "Name mishap!")
  | _ => .error (.typeError "reload data is not a JSON object")

/-! ### find_by and its two filter dialects -/

/-- The wire shape of one filter request issued by `find_by`: either the
legacy single `sqlfilter` query parameter, or the repeated `filter[]`
parameter. -/
inductive FilterQuery where
  | sqlfilter (q : String)
  | filterArr (qs : List String)
  deriving DecidableEq, Repr

/-- The `sqlfilter` string built by `Collection._find_by_sqlfilter`:
`"{} = {}".format(key, repr(str(value)))` joined with `" AND "`. -/
def sqlfilterString (params : List (String × JVal)) : String :=
  String.intercalate " AND "
    (params.map (fun kv => kv.1 ++ " = " ++ pyReprStr (pyToString kv.2)))

/-- The `filter[]` list built by `Collection._find_by_filter`:
one `"{}={}".format(key, repr(str(value)))` entry per filter pair. -/
def filterStrings (params : List (String × JVal)) : List String :=
  params.map (fun kv => kv.1 ++ "=" ++ pyReprStr (pyToString kv.2))

/-- The fields of a `SearchResult`: the popped `count`, `subcount` and
`name`, plus one `Entity` per element of `resources`. -/
structure SearchResultM where
  count : JVal
  subcount : JVal
  name : JVal
  resources : List EntityState

/-- Python's `for resource in ...: resources.append(Entity(...))` loop:
stop at the first exception. -/
def exceptMapList {α β : Type} (f : α → Except PyErr β) :
    List α → Except PyErr (List β)
  | [] => .ok []
  | x :: xs =>
      match f x with
      | .error e => .error e
      | .ok y =>
          match exceptMapList f xs with
          | .error e => .error e
          | .ok ys => .ok (y :: ys)

/-- Does this outcome consist of a raised `APIException` (the only
exception an `except APIException` clause catches)? -/
def isApiErr {α : Type} : Except PyErr α → Bool
  | .error (.apiError _) => true
  | _ => false

/-- `SearchResult.__init__` on the decoded collection document: pop
`count`, `subcount`, `name` (a `KeyError` when absent), then build one
`Entity` per element of `resources`. -/
def mkSearchResult (api : ApiCfg) (d : JVal) : Except PyErr SearchResultM :=
  match jLookup d "count" with
  | .error e => .error e
  | .ok cnt =>
  match jLookup d "subcount" with
  | .error e => .error e
  | .ok sub =>
  match jLookup d "name" with
  | .error e => .error e
  | .ok nm =>
  match jLookup d "resources" with
  | .error e => .error e
  | .ok (.jarr items) =>
      match exceptMapList (entityInit api) items with
      | .ok ents => .ok ⟨cnt, sub, nm, ents⟩
      | .error e => .error e
  | .ok _ => .error (.typeError "resources is not iterable")

/-- `Collection._find_by_sqlfilter` against an abstract server: issue the
`sqlfilter` query, then build the `SearchResult`.  The first component is
the list of requests put on the wire. -/
def findBySqlfilter (api : ApiCfg) (server : FilterQuery → Except PyErr JVal)
    (params : List (String × JVal)) :
    List FilterQuery × Except PyErr SearchResultM :=
  let q := FilterQuery.sqlfilter (sqlfilterString params)
  ([q], match server q with
        | .ok d => mkSearchResult api d
        | .error e => .error e)

/-- `Collection._find_by_filter` against an abstract server. -/
def findByFilter (api : ApiCfg) (server : FilterQuery → Except PyErr JVal)
    (params : List (String × JVal)) :
    List FilterQuery × Except PyErr SearchResultM :=
  let q := FilterQuery.filterArr (filterStrings params)
  ([q], match server q with
        | .ok d => mkSearchResult api d
        | .error e => .error e)

/-- `Collection.find_by`: at exactly version `2.0.0-pre`, try
`_find_by_sqlfilter` and fall back to `_find_by_filter` when it raises
`APIException` (and only then); in the 1.1 series or at/after 2.0.0, use
`_find_by_filter` alone; otherwise use `_find_by_sqlfilter` alone.
Returns the requests issued, in order, alongside the outcome. -/
def findBy (api : ApiCfg) (server : FilterQuery → Except PyErr JVal)
    (params : List (String × JVal)) :
    List FilterQuery × Except PyErr SearchResultM :=
  if api.version = v2_0_0_pre then
    let first := findBySqlfilter api server params
    match first.2 with
    | .error (.apiError _) =>
        let second := findByFilter api server params
        (first.1 ++ second.1, second.2)
    | r => (first.1, r)
  else if versionInSeries api.version v1_1 || versionGe api.version v2_0_0 then
    findByFilter api server params
  else
    findBySqlfilter api server params

/-! ### ActionContainer and Action -/

/-- One server-declared action: its name, HTTP method, and href (the
triple `ActionContainer.reload` reads from each element of the owner's
`_actions` and stores in the `Action` it constructs). -/
structure ActionDecl where
  name : String
  method : String
  href : String
  deriving DecidableEq, Repr

/-- `ActionContainer.reload` on an owner whose latest snapshot declares
`latest`: `setattr` one `Action` per declared action onto the container's
current attributes.  Nothing is ever deleted. -/
def actionContainerReload (latest : List ActionDecl)
    (attrs : List (String × ActionDecl)) : List (String × ActionDecl) :=
  latest.foldl (fun acc a => pySetattr acc a.name a) attrs

/-- A positional argument to an `Action` call: an `Entity` (converted to
its `{"href": ...}` reference) or any other value (passed through). -/
inductive ActArg where
  | ent (e : EntityState)
  | raw (v : JVal)

/-- The HTTP verb an `Action` call dispatches to. -/
inductive HttpVerb where
  | post
  | delete
  deriving DecidableEq, Repr

/-- The request an `Action.__call__` puts on the wire: verb, url, and the
JSON body. -/
structure ActionRequest where
  verb : HttpVerb
  url : String
  body : JVal

/-- `Action.__call__` up to the point the request is issued: convert
positional arguments (`Entity` → `{"href": ...}`, others unchanged), build
the body with the action name plus either a bulk `resources` array (when
positional arguments are present) or a single `resource` object (when only
keyword arguments are present), then dispatch on the declared method —
anything but `post` or `delete` is `NotImplementedError`. -/
def actionCall (a : ActionDecl) (args : List ActArg)
    (kwargs : List (String × JVal)) : Except PyErr ActionRequest :=
  let resources := args.map (fun arg =>
    match arg with
    | .ent e => JVal.jobj [("href", e.href)]
    | .raw v => v)
  let body :=
    JVal.jobj
      ([("action", JVal.jstr a.name)] ++
       (if resources.isEmpty then
          (if kwargs.isEmpty then [] else [("resource", JVal.jobj kwargs)])
        else [("resources", JVal.jarr resources)]))
  if a.method = "post" then .ok ⟨.post, a.href, body⟩
  else if a.method = "delete" then .ok ⟨.delete, a.href, body⟩
  else .error .notImplementedError

/-! ## Theorems -/

/-- C4: every request made through `API.get`, `API.post` or `API.delete`
whose response decodes to a JSON object carrying an `error` key with
`klass` and `message` fields raises a domain error (`APIException`) whose
message contains both the klass string and the message string; the check
runs on every successful decode for all three verbs. -/
theorem error_envelope_on_all_verbs (resp : HttpResponse)
    (fields errFields : List (String × JVal)) (k m : String)
    (hjson : resp.json = some (.jobj fields))
    (herr : pyGetattr fields "error" = some (.jobj errFields))
    (hk : pyGetattr errFields "klass" = some (.jstr k))
    (hm : pyGetattr errFields "message" = some (.jstr m)) :
    ∃ msg, apiGet resp = .error (.apiError msg) ∧
      apiPost resp = .error (.apiError msg) ∧
      apiDelete resp = .error (.apiError msg) ∧
      StrContains msg k ∧ StrContains msg m := by
  refine ⟨k ++ ": " ++ m, ?_, ?_, ?_, ?_, ?_⟩
  · simp [apiGet, hjson, resultProcessor, jLookup, herr, hk, hm, pyToString]
  · simp [apiPost, hjson, resultProcessor, jLookup, herr, hk, hm, pyToString]
  · simp [apiDelete, hjson, resultProcessor, jLookup, herr, hk, hm, pyToString]
  · exact ⟨"", ": " ++ m, by simp [String.append_assoc]⟩
  · exact ⟨k ++ ": ", "", by simp⟩

/-- Witness for C4 at the spec's example envelope
`{"error": {"klass": "Foo", "message": "bar"}}`. -/
theorem error_envelope_on_all_verbs_witness :
    ∃ msg,
      apiGet ⟨"{...}", some (.jobj [("error", .jobj
          [("klass", .jstr "Foo"), ("message", .jstr "bar")])])⟩ =
        .error (.apiError msg) ∧
      apiPost ⟨"{...}", some (.jobj [("error", .jobj
          [("klass", .jstr "Foo"), ("message", .jstr "bar")])])⟩ =
        .error (.apiError msg) ∧
      apiDelete ⟨"{...}", some (.jobj [("error", .jobj
          [("klass", .jstr "Foo"), ("message", .jstr "bar")])])⟩ =
        .error (.apiError msg) ∧
      StrContains msg "Foo" ∧ StrContains msg "bar" :=
  error_envelope_on_all_verbs _ _ _ "Foo" "bar" rfl rfl rfl rfl

/-- C5: `API.post` and `API.delete` return a null result (no error) when
the response body fails to decode but is empty or whitespace-only; when
the body fails to decode and is non-empty, they raise a decode error
carrying the raw response text. -/
theorem post_delete_empty_body_tolerance (resp : HttpResponse)
    (hjson : resp.json = none) :
    (pyStripEmpty resp.text = true →
      apiPost resp = .ok none ∧ apiDelete resp = .ok none) ∧
    (pyStripEmpty resp.text = false →
      apiPost resp = .error (.apiError ("JSONDecodeError: " ++ resp.text)) ∧
      apiDelete resp = .error (.apiError ("JSONDecodeError: " ++ resp.text)) ∧
      StrContains ("JSONDecodeError: " ++ resp.text) resp.text) := by
  constructor
  · intro hempty
    constructor <;> simp [apiPost, apiDelete, hjson, hempty]
  · intro hne
    refine ⟨?_, ?_, "JSONDecodeError: ", "", by simp⟩
    · simp [apiPost, hjson, hne]
    · simp [apiDelete, hjson, hne]

/-- Witness for C5: a whitespace-only post body yields `None`, and a
non-empty non-JSON delete body raises the decode error carrying the text. -/
theorem post_delete_empty_body_tolerance_witness :
    apiPost ⟨"  ", none⟩ = .ok none ∧
    apiDelete ⟨"oops", none⟩ =
      .error (.apiError ("JSONDecodeError: " ++ "oops")) :=
  ⟨((post_delete_empty_body_tolerance ⟨"  ", none⟩ rfl).1 (by decide)).1,
   ((post_delete_empty_body_tolerance ⟨"oops", none⟩ rfl).2 (by decide)).2.1⟩

/-- C10: `API.get` raises the decode error on every undecodable response
body, including an empty one — the empty-body tolerance of post/delete
does not apply to get. -/
theorem get_decode_error_has_no_empty_tolerance (resp : HttpResponse)
    (hjson : resp.json = none) :
    apiGet resp = .error (.apiError ("JSONDecodeError: " ++ resp.text)) := by
  simp [apiGet, hjson]

/-- Witness for C10 at an empty response body: get raises where post
would return `None`. -/
theorem get_decode_error_has_no_empty_tolerance_witness :
    apiGet ⟨"", none⟩ = .error (.apiError ("JSONDecodeError: " ++ "")) :=
  get_decode_error_has_no_empty_tolerance ⟨"", none⟩ rfl

/-! ### Attribute-map lemmas -/

theorem pyGetattr_pySetattr_self {α : Type} (attrs : List (String × α))
    (k : String) (v : α) : pyGetattr (pySetattr attrs k v) k = some v := by
  induction attrs with
  | nil => simp [pySetattr, pyGetattr]
  | cons hd tl ih =>
      obtain ⟨k1, v1⟩ := hd
      by_cases h : k1 = k
      · subst h; simp [pySetattr, pyGetattr]
      · simp [pySetattr, h, pyGetattr, ih]

theorem pyGetattr_pySetattr_ne {α : Type} (attrs : List (String × α))
    (k a : String) (v : α) (h : a ≠ k) :
    pyGetattr (pySetattr attrs k v) a = pyGetattr attrs a := by
  have h2 : ¬k = a := fun e => h e.symm
  induction attrs with
  | nil => simp [pySetattr, pyGetattr, h2]
  | cons hd tl ih =>
      obtain ⟨k1, v1⟩ := hd
      by_cases hk : k1 = k
      · subst hk; simp [pySetattr, pyGetattr, h2]
      · by_cases ha : k1 = a
        · subst ha; simp [pySetattr, pyGetattr, h]
        · simp [pySetattr, hk, pyGetattr, ha, ih]

theorem pyGetattr_pySetattr_isSome {α : Type} (attrs : List (String × α))
    (k a : String) (v : α) (h : (pyGetattr attrs a).isSome) :
    (pyGetattr (pySetattr attrs k v) a).isSome := by
  by_cases hk : a = k
  · subst hk; simp [pyGetattr_pySetattr_self]
  · rwa [pyGetattr_pySetattr_ne attrs k a v hk]

theorem pyGetattr_filter_ne {α : Type} (fs : List (String × α))
    (k bad : String) (hk : k ≠ bad) :
    pyGetattr (fs.filter (fun kv => kv.1 != bad)) k = pyGetattr fs k := by
  induction fs with
  | nil => simp
  | cons hd tl ih =>
      obtain ⟨k1, v1⟩ := hd
      by_cases hbad : k1 = bad
      · subst hbad
        have hne : ¬k1 = k := fun e => hk e.symm
        simp [List.filter_cons, pyGetattr, hne, ih]
      · by_cases hkk : k1 = k
        · subst hkk
          simp [List.filter_cons, bne_iff_ne, hbad, pyGetattr]
        · simp [List.filter_cons, bne_iff_ne, hbad, pyGetattr, hkk, ih]

/-! ### Field-loop lemmas for `Entity.reload` -/

theorem pyGetattr_applyField_ne (api : ApiCfg)
    (attrs : List (String × AttrVal)) (k : String) (v : JVal) (a : String)
    (h1 : a ≠ k)
    (h2 : ∀ t, pyGetattr COLLECTION_MAPPING k = some t → a ≠ stripIdSuffix k) :
    pyGetattr (applyField api attrs k v) a = pyGetattr attrs a := by
  by_cases ht : k ∈ TIME_FIELDS
  · simp [applyField, ht, pyGetattr_pySetattr_ne _ _ _ _ h1]
  · cases hm : pyGetattr COLLECTION_MAPPING k with
    | none => simp [applyField, ht, hm, pyGetattr_pySetattr_ne _ _ _ _ h1]
    | some t =>
        simp [applyField, ht, hm, pyGetattr_pySetattr_ne _ _ _ _ h1,
              pyGetattr_pySetattr_ne _ _ _ _ (h2 t hm)]

theorem pyGetattr_applyField_self_isSome (api : ApiCfg)
    (attrs : List (String × AttrVal)) (k : String) (v : JVal) :
    (pyGetattr (applyField api attrs k v) k).isSome := by
  by_cases ht : k ∈ TIME_FIELDS
  · simp [applyField, ht, pyGetattr_pySetattr_self]
  · cases hm : pyGetattr COLLECTION_MAPPING k with
    | none => simp [applyField, ht, hm, pyGetattr_pySetattr_self]
    | some t => simp [applyField, ht, hm, pyGetattr_pySetattr_self]

theorem pyGetattr_applyField_isSome (api : ApiCfg)
    (attrs : List (String × AttrVal)) (k : String) (v : JVal) (a : String)
    (h : (pyGetattr attrs a).isSome) :
    (pyGetattr (applyField api attrs k v) a).isSome := by
  by_cases ht : k ∈ TIME_FIELDS
  · simp only [applyField, ht, if_true]
    exact pyGetattr_pySetattr_isSome _ _ _ _ h
  · cases hm : pyGetattr COLLECTION_MAPPING k with
    | none =>
        simp only [applyField, ht, if_false, hm]
        exact pyGetattr_pySetattr_isSome _ _ _ _ h
    | some t =>
        simp only [applyField, ht, if_false, hm]
        exact pyGetattr_pySetattr_isSome _ _ _ _
          (pyGetattr_pySetattr_isSome _ _ _ _ h)

/-- The field loop of `Entity.reload` leaves a key untouched when no
processed field writes it. -/
theorem pyGetattr_foldFields_ne (api : ApiCfg)
    (fields : List (String × JVal)) (a : String) :
    ∀ attrs : List (String × AttrVal),
      (∀ kv ∈ fields, a ≠ kv.1 ∧
        (∀ t, pyGetattr COLLECTION_MAPPING kv.1 = some t →
          a ≠ stripIdSuffix kv.1)) →
      pyGetattr (fields.foldl (fun acc kv => applyField api acc kv.1 kv.2) attrs) a
        = pyGetattr attrs a := by
  induction fields with
  | nil => intro attrs _; simp
  | cons hd tl ih =>
      intro attrs h
      simp only [List.foldl_cons]
      rw [ih _ (fun kv hkv => h kv (List.mem_cons_of_mem hd hkv)),
          pyGetattr_applyField_ne api attrs hd.1 hd.2 a
            (h hd (List.mem_cons_self hd tl)).1
            (h hd (List.mem_cons_self hd tl)).2]

/-- The field loop never loses an already-present key. -/
theorem pyGetattr_foldFields_isSome_of (api : ApiCfg)
    (fields : List (String × JVal)) (a : String) :
    ∀ attrs : List (String × AttrVal), (pyGetattr attrs a).isSome →
      (pyGetattr
        (fields.foldl (fun acc kv => applyField api acc kv.1 kv.2) attrs)
        a).isSome := by
  induction fields with
  | nil => intro attrs h; simpa using h
  | cons hd tl ih =>
      intro attrs h
      simp only [List.foldl_cons]
      exact ih _ (pyGetattr_applyField_isSome api attrs hd.1 hd.2 a h)

/-- Every field processed by the loop ends up present among the
attributes. -/
theorem pyGetattr_foldFields_isSome (api : ApiCfg)
    (fields : List (String × JVal)) :
    ∀ (attrs : List (String × AttrVal)) (kv : String × JVal), kv ∈ fields →
      (pyGetattr
        (fields.foldl (fun acc kv => applyField api acc kv.1 kv.2) attrs)
        kv.1).isSome := by
  induction fields with
  | nil => intro attrs kv hkv; cases hkv
  | cons hd tl ih =>
      intro attrs kv hkv
      simp only [List.foldl_cons]
      rcases List.mem_cons.mp hkv with heq | hmem
      · subst heq
        exact pyGetattr_foldFields_isSome_of api tl kv.1 _
          (pyGetattr_applyField_self_isSome api attrs kv.1 kv.2)
      · exact ih _ kv hmem

/-! ### C9: collection reload name check -/

/-- C9: `Collection.reload` raises the consistency error
(`ValueError("Name mishap!")`) exactly when the name in the server's
document differs from the name the collection was constructed with; when
the names match, no such error is raised. -/
theorem collection_reload_name_consistency (c : CollectionState)
    (fields : List (String × JVal)) (res cnt sub : JVal) (n : String)
    (hres : pyGetattr fields "resources" = some res)
    (hcnt : pyGetattr fields "count" = some cnt)
    (hsub : pyGetattr fields "subcount" = some sub)
    (hn : pyGetattr fields "name" = some (.jstr n)) :
    (n ≠ c.name →
      collectionReload c (.jobj fields) = .error (.valueError "Name mishap!")) ∧
    (n = c.name → ∃ c2, collectionReload c (.jobj fields) = .ok c2) := by
  have hn2 : pyGetattr (fields.filter (fun kv => kv.1 != "actions")) "name"
      = some (.jstr n) := by
    rw [pyGetattr_filter_ne fields "name" "actions" (by decide)]; exact hn
  constructor
  · intro hne
    simp [collectionReload, jLookup, hres, hcnt, hsub, hn2, jvalIsStr, hne]
  · intro heq
    refine ⟨{ c with
        data := some (.jobj (fields.filter (fun kv => kv.1 != "actions"))),
        resources := some res, count := some cnt, subcount := some sub,
        actions := some ((pyGetattr fields "actions").getD (.jarr [])) }, ?_⟩
    simp [collectionReload, jLookup, hres, hcnt, hsub, hn2, jvalIsStr, heq]

/-- Witness for C9: a matching name reloads cleanly; a mismatching one
raises `ValueError("Name mishap!")`. -/
theorem collection_reload_name_consistency_witness :
    collectionReload (collectionInit "http://x/api/vms" "vms" none)
      (.jobj [("name", .jstr "hosts"), ("count", .jnum 1),
              ("subcount", .jnum 1), ("resources", .jarr [])]) =
      .error (.valueError "Name mishap!") :=
  (collection_reload_name_consistency
      (collectionInit "http://x/api/vms" "vms" none)
      [("name", .jstr "hosts"), ("count", .jnum 1),
       ("subcount", .jnum 1), ("resources", .jarr [])]
      (.jarr []) (.jnum 1) (.jnum 1) "hosts"
      rfl rfl rfl rfl).1 (by decide)

/-! ### C3: identity stability across reloads -/

/-- C3: an `Entity` built from an href, reloaded any positive number of
times against a server that returns the same document each time, resolves
the same identity field (`id` before 2.0.0, `href` at/after) after every
reload. -/
theorem entity_identity_stable_across_reloads (api : ApiCfg) (h0 : String)
    (fields : List (String × JVal)) (idv : JVal)
    (hid : pyGetattr fields (identKey api) = some idv) :
    ∀ k : Nat, 1 ≤ k →
      ∃ e2, entityReloads api (.jobj fields) k ⟨.jstr h0, none, .jarr [], []⟩
          = .ok e2 ∧ e2.href = idv := by
  have step : ∀ e : EntityState, ∃ e2,
      entityApplyDoc api e (.jobj fields) = .ok e2 ∧ e2.href = idv := by
    intro e
    refine ⟨⟨idv,
        some (.jobj (fields.filter (fun kv => kv.1 != "actions"))),
        (pyGetattr fields "actions").getD (.jarr []),
        (fields.filter (fun kv => kv.1 != "actions")).foldl
          (fun acc kv => applyField api acc kv.1 kv.2) e.attrs⟩, ?_, rfl⟩
    simp [entityApplyDoc, hid]
  have main : ∀ (k : Nat) (e : EntityState), 1 ≤ k →
      ∃ e2, entityReloads api (.jobj fields) k e = .ok e2 ∧ e2.href = idv := by
    intro k
    induction k with
    | zero => intro e h; cases h
    | succ n ih =>
        intro e _
        obtain ⟨e1, he1, hh1⟩ := step e
        cases n with
        | zero => exact ⟨e1, by simp [entityReloads, he1], hh1⟩
        | succ m =>
            obtain ⟨e2, he2, hh2⟩ := ih e1 (Nat.succ_le_succ (Nat.zero_le m))
            exact ⟨e2, by simp [entityReloads, he1]; exact he2, hh2⟩
  intro k hk
  exact main k _ hk

/-- Witness for C3: two reloads of an entity fetched by href, on a
pre-2.0.0 client, both resolve identity `id = 5`. -/
theorem entity_identity_stable_across_reloads_witness :
    ∃ e2, entityReloads ⟨"http://x/api", v1_0⟩
        (.jobj [("id", .jnum 5), ("name", .jstr "vm1")]) 2
        ⟨.jstr "http://x/api/vms/5", none, .jarr [], []⟩
      = .ok e2 ∧ e2.href = .jnum 5 :=
  entity_identity_stable_across_reloads ⟨"http://x/api", v1_0⟩
    "http://x/api/vms/5" [("id", .jnum 5), ("name", .jstr "vm1")]
    (.jnum 5) rfl 2 (by decide)

/-! ### Finite facts about the foreign-key mapping -/

theorem mapping_cases (k t : String)
    (h : pyGetattr COLLECTION_MAPPING k = some t) :
    (k = "ems_id" ∧ t = "providers") ∨ (k = "storage_id" ∧ t = "data_stores") ∨
    (k = "zone_id" ∧ t = "zones") ∨ (k = "host_id" ∧ t = "hosts") ∨
    (k = "current_group_id" ∧ t = "groups") ∨
    (k = "miq_user_role_id" ∧ t = "roles") := by
  simp only [COLLECTION_MAPPING, pyGetattr] at h
  split_ifs at h with h1 h2 h3 h4 h5 h6
  · exact Or.inl ⟨h1.symm, (Option.some.inj h).symm⟩
  · exact Or.inr (Or.inl ⟨h2.symm, (Option.some.inj h).symm⟩)
  · exact Or.inr (Or.inr (Or.inl ⟨h3.symm, (Option.some.inj h).symm⟩))
  · exact Or.inr (Or.inr (Or.inr (Or.inl ⟨h4.symm, (Option.some.inj h).symm⟩)))
  · exact Or.inr (Or.inr (Or.inr (Or.inr
      (Or.inl ⟨h5.symm, (Option.some.inj h).symm⟩))))
  · exact Or.inr (Or.inr (Or.inr (Or.inr
      (Or.inr ⟨h6.symm, (Option.some.inj h).symm⟩))))

theorem fk_key_not_time (k t : String)
    (h : pyGetattr COLLECTION_MAPPING k = some t) : k ∉ TIME_FIELDS := by
  rcases mapping_cases k t h with
    ⟨hk, _⟩ | ⟨hk, _⟩ | ⟨hk, _⟩ | ⟨hk, _⟩ | ⟨hk, _⟩ | ⟨hk, _⟩ <;>
    subst hk <;> decide

theorem fk_strip_ne_self (k t : String)
    (h : pyGetattr COLLECTION_MAPPING k = some t) : stripIdSuffix k ≠ k := by
  rcases mapping_cases k t h with
    ⟨hk, _⟩ | ⟨hk, _⟩ | ⟨hk, _⟩ | ⟨hk, _⟩ | ⟨hk, _⟩ | ⟨hk, _⟩ <;>
    subst hk <;> decide

theorem fk_key_ne_strip (k t k2 t2 : String)
    (h : pyGetattr COLLECTION_MAPPING k = some t)
    (h2 : pyGetattr COLLECTION_MAPPING k2 = some t2) :
    k ≠ stripIdSuffix k2 := by
  rcases mapping_cases k t h with
    ⟨hk, _⟩ | ⟨hk, _⟩ | ⟨hk, _⟩ | ⟨hk, _⟩ | ⟨hk, _⟩ | ⟨hk, _⟩ <;>
  rcases mapping_cases k2 t2 h2 with
    ⟨hk2, _⟩ | ⟨hk2, _⟩ | ⟨hk2, _⟩ | ⟨hk2, _⟩ | ⟨hk2, _⟩ | ⟨hk2, _⟩ <;>
  subst hk <;> subst hk2 <;> decide

theorem fk_strip_inj (k t k2 t2 : String)
    (h : pyGetattr COLLECTION_MAPPING k = some t)
    (h2 : pyGetattr COLLECTION_MAPPING k2 = some t2) (hne : k ≠ k2) :
    stripIdSuffix k ≠ stripIdSuffix k2 := by
  rcases mapping_cases k t h with
    ⟨hk, _⟩ | ⟨hk, _⟩ | ⟨hk, _⟩ | ⟨hk, _⟩ | ⟨hk, _⟩ | ⟨hk, _⟩ <;>
  rcases mapping_cases k2 t2 h2 with
    ⟨hk2, _⟩ | ⟨hk2, _⟩ | ⟨hk2, _⟩ | ⟨hk2, _⟩ | ⟨hk2, _⟩ | ⟨hk2, _⟩ <;>
  subst hk <;> subst hk2 <;> first
    | exact absurd rfl hne
    | decide

theorem fk_key_ne_actions (k t : String)
    (h : pyGetattr COLLECTION_MAPPING k = some t) : k ≠ "actions" := by
  rcases mapping_cases k t h with
    ⟨hk, _⟩ | ⟨hk, _⟩ | ⟨hk, _⟩ | ⟨hk, _⟩ | ⟨hk, _⟩ | ⟨hk, _⟩ <;>
    subst hk <;> decide

/-- Processing a recognized foreign-key field stores both the raw id and
the de-suffixed stub reference. -/
theorem pyGetattr_applyField_fk (api : ApiCfg)
    (attrs : List (String × AttrVal)) (k t : String) (v : JVal)
    (hm : pyGetattr COLLECTION_MAPPING k = some t) :
    pyGetattr (applyField api attrs k v) k = some (.val v) ∧
    pyGetattr (applyField api attrs k v) (stripIdSuffix k) =
      some (.entityStub t (api.entryPoint ++ "/" ++ t)
        (api.entryPoint ++ "/" ++ t ++ "/" ++ pyToString v)) := by
  have hnt := fk_key_not_time k t hm
  have hss := fk_strip_ne_self k t hm
  constructor
  · simp [applyField, hnt, hm, pyGetattr_pySetattr_self]
  · simp [applyField, hnt, hm, pyGetattr_pySetattr_ne _ _ _ _ hss,
          pyGetattr_pySetattr_self]

/-- After the whole field loop, a foreign-key field whose synthesized name
clashes with no document key exposes both attributes. -/
theorem fold_fk_lookup (api : ApiCfg) (k t : String) (v : JVal)
    (hm : pyGetattr COLLECTION_MAPPING k = some t) :
    ∀ (fields : List (String × JVal)) (attrs : List (String × AttrVal)),
      (k, v) ∈ fields → (fields.map Prod.fst).Nodup →
      (∀ kv ∈ fields, kv.1 ≠ stripIdSuffix k) →
      pyGetattr
          (fields.foldl (fun acc kv => applyField api acc kv.1 kv.2) attrs) k
        = some (.val v) ∧
      pyGetattr
          (fields.foldl (fun acc kv => applyField api acc kv.1 kv.2) attrs)
          (stripIdSuffix k)
        = some (.entityStub t (api.entryPoint ++ "/" ++ t)
            (api.entryPoint ++ "/" ++ t ++ "/" ++ pyToString v)) := by
  intro fields
  induction fields with
  | nil => intro attrs h; cases h
  | cons hd tl ih =>
      intro attrs hkv hnodup hfree
      have hnodup1 : (hd.1 :: tl.map Prod.fst).Nodup := by simpa using hnodup
      have hhead : hd.1 ∉ tl.map Prod.fst := (List.nodup_cons.mp hnodup1).1
      have htail : (tl.map Prod.fst).Nodup := (List.nodup_cons.mp hnodup1).2
      simp only [List.foldl_cons]
      rcases List.mem_cons.mp hkv with heq | hmem
      · have hhd1 : hd.1 = k := by rw [← heq]
        have hhd2 : hd.2 = v := by rw [← heq]
        have hknotin : ∀ kv2 ∈ tl, k ≠ kv2.1 := by
          intro kv2 hkv2 hk
          apply hhead
          rw [hhd1, hk]
          exact List.mem_map_of_mem Prod.fst hkv2
        rw [hhd1, hhd2]
        have base := pyGetattr_applyField_fk api attrs k t v hm
        have hk_pres := pyGetattr_foldFields_ne api tl k
          (applyField api attrs k v)
          (fun kv2 hkv2 =>
            ⟨hknotin kv2 hkv2,
             fun t2 hm2 => fk_key_ne_strip k t kv2.1 t2 hm hm2⟩)
        have hs_pres := pyGetattr_foldFields_ne api tl (stripIdSuffix k)
          (applyField api attrs k v)
          (fun kv2 hkv2 =>
            ⟨fun hs => hfree kv2 (List.mem_cons_of_mem hd hkv2) hs.symm,
             fun t2 hm2 =>
               fk_strip_inj k t kv2.1 t2 hm hm2 (hknotin kv2 hkv2)⟩)
        exact ⟨hk_pres.trans base.1, hs_pres.trans base.2⟩
      · exact ih _ hmem htail
          (fun kv2 hkv2 => hfree kv2 (List.mem_cons_of_mem hd hkv2))

/-! ### C7: foreign-key synthesis -/

/-- C7: when an entity's reloaded document carries a recognized
foreign-key field `k = v` (and no field of its own named like the
de-suffixed attribute), the reload succeeds and the entity exposes both
the raw id field with value `v` and the de-suffixed attribute holding a
stub `Entity` addressed into the mapped target collection with id `v`. -/
theorem entity_fk_synthesis (api : ApiCfg) (e : EntityState)
    (fields : List (String × JVal)) (idv v : JVal) (k target : String)
    (hid : pyGetattr fields (identKey api) = some idv)
    (hfk : pyGetattr COLLECTION_MAPPING k = some target)
    (hkv : (k, v) ∈ fields)
    (hnodup : (fields.map Prod.fst).Nodup)
    (hfree : ∀ kv ∈ fields, kv.1 ≠ stripIdSuffix k) :
    ∃ e2, entityApplyDoc api e (.jobj fields) = .ok e2 ∧
      pyGetattr e2.attrs k = some (.val v) ∧
      pyGetattr e2.attrs (stripIdSuffix k) =
        some (.entityStub target (api.entryPoint ++ "/" ++ target)
          (api.entryPoint ++ "/" ++ target ++ "/" ++ pyToString v)) := by
  refine ⟨⟨idv,
      some (.jobj (fields.filter (fun kv => kv.1 != "actions"))),
      (pyGetattr fields "actions").getD (.jarr []),
      (fields.filter (fun kv => kv.1 != "actions")).foldl
        (fun acc kv => applyField api acc kv.1 kv.2) e.attrs⟩, ?_, ?_⟩
  · simp [entityApplyDoc, hid]
  · have hmemf : (k, v) ∈ fields.filter (fun kv => kv.1 != "actions") :=
      List.mem_filter.mpr ⟨hkv, by
        simpa [bne_iff_ne] using fk_key_ne_actions k target hfk⟩
    have hsub : List.Sublist
        ((fields.filter (fun kv => kv.1 != "actions")).map Prod.fst)
        (fields.map Prod.fst) :=
      (List.filter_sublist fields).map Prod.fst
    exact fold_fk_lookup api k target v hfk _ e.attrs hmemf
      (hnodup.sublist hsub)
      (fun kv hkv2 => hfree kv (List.mem_of_mem_filter hkv2))

/-- Witness for C7 at the spec's example: a document with `zone_id = 7`
exposes `zone_id = 7` and a `zone` stub into the zones collection. -/
theorem entity_fk_synthesis_witness :
    ∃ e2, entityApplyDoc ⟨"http://x/api", v1_0⟩
        ⟨.jstr "http://x/api/vms/1", none, .jarr [], []⟩
        (.jobj [("id", .jnum 1), ("zone_id", .jnum 7)]) = .ok e2 ∧
      pyGetattr e2.attrs "zone_id" = some (.val (.jnum 7)) ∧
      pyGetattr e2.attrs (stripIdSuffix "zone_id") =
        some (.entityStub "zones" ("http://x/api" ++ "/" ++ "zones")
          ("http://x/api" ++ "/" ++ "zones" ++ "/" ++ pyToString (.jnum 7))) :=
  entity_fk_synthesis ⟨"http://x/api", v1_0⟩
    ⟨.jstr "http://x/api/vms/1", none, .jarr [], []⟩
    [("id", .jnum 1), ("zone_id", .jnum 7)] (.jnum 1) (.jnum 7)
    "zone_id" "zones" rfl rfl
    (List.Mem.tail _ (List.Mem.head _)) (by decide)
    (by
      intro kv hkv
      rcases List.mem_cons.mp hkv with h | h
      · rw [h]; decide
      · rcases List.mem_cons.mp h with h2 | h2
        · rw [h2]; decide
        · cases h2)

/-! ### C6: lazy stub and attribute-miss reload -/

/-- C6: an `Entity` built from an href-only document starts with no domain
fields; the first access to any attribute performs exactly one full reload
and retries the lookup once, after which every server-declared field is
present; an attribute still absent after the reload raises the
`AttributeError("No such attribute ...")`. -/
theorem entity_lazy_stub (api : ApiCfg) (h0 : String)
    (fields : List (String × JVal)) (idv : JVal) (attr : String)
    (hid : pyGetattr fields (identKey api) = some idv) :
    entityInit api (.jobj [("href", .jstr h0)]) =
      .ok ⟨.jstr h0, none, .jarr [], []⟩ ∧
    (entityGetattr api ⟨.jstr h0, none, .jarr [], []⟩ (.jobj fields) attr).2.1
      = 1 ∧
    (∀ kv ∈ fields.filter (fun kv => kv.1 != "actions"),
      (pyGetattr
        (entityGetattr api ⟨.jstr h0, none, .jarr [], []⟩ (.jobj fields)
          attr).2.2.attrs kv.1).isSome) ∧
    (pyGetattr
        ((fields.filter (fun kv => kv.1 != "actions")).foldl
          (fun acc kv => applyField api acc kv.1 kv.2)
          ([] : List (String × AttrVal))) attr = none →
      (entityGetattr api ⟨.jstr h0, none, .jarr [], []⟩ (.jobj fields)
        attr).1 =
        .error (.attributeError ("No such attribute " ++ attr))) := by
  have happly : entityApplyDoc api ⟨.jstr h0, none, .jarr [], []⟩ (.jobj fields)
      = .ok ⟨idv,
          some (.jobj (fields.filter (fun kv => kv.1 != "actions"))),
          (pyGetattr fields "actions").getD (.jarr []),
          (fields.filter (fun kv => kv.1 != "actions")).foldl
            (fun acc kv => applyField api acc kv.1 kv.2) []⟩ := by
    simp [entityApplyDoc, hid]
  refine ⟨?_, ?_, ?_, ?_⟩
  · simp [entityInit, pyGetattr]
  · cases hcase : pyGetattr
        ((fields.filter (fun kv => kv.1 != "actions")).foldl
          (fun acc kv => applyField api acc kv.1 kv.2)
          ([] : List (String × AttrVal))) attr with
    | some v => simp [entityGetattr, pyGetattr, happly, hcase]
    | none => simp [entityGetattr, pyGetattr, happly, hcase]
  · intro kv hkv
    cases hcase : pyGetattr
        ((fields.filter (fun kv => kv.1 != "actions")).foldl
          (fun acc kv => applyField api acc kv.1 kv.2)
          ([] : List (String × AttrVal))) attr with
    | some v =>
        simp only [entityGetattr, pyGetattr, happly, hcase]
        exact pyGetattr_foldFields_isSome api _ [] kv hkv
    | none =>
        simp only [entityGetattr, pyGetattr, happly, hcase]
        exact pyGetattr_foldFields_isSome api _ [] kv hkv
  · intro hmiss
    simp [entityGetattr, pyGetattr, happly, hmiss]

/-- Witness for C6: a stub built from an href alone carries no fields, and
its first attribute access reloads exactly once. -/
theorem entity_lazy_stub_witness :
    entityInit ⟨"http://x/api", v1_0⟩
        (.jobj [("href", .jstr "http://x/api/vms/1")]) =
      .ok ⟨.jstr "http://x/api/vms/1", none, .jarr [], []⟩ ∧
    (entityGetattr ⟨"http://x/api", v1_0⟩
        ⟨.jstr "http://x/api/vms/1", none, .jarr [], []⟩
        (.jobj [("id", .jnum 1), ("name", .jstr "vm")]) "name").2.1 = 1 :=
  ⟨(entity_lazy_stub ⟨"http://x/api", v1_0⟩ "http://x/api/vms/1"
      [("id", .jnum 1), ("name", .jstr "vm")] (.jnum 1) "name" rfl).1,
   (entity_lazy_stub ⟨"http://x/api", v1_0⟩ "http://x/api/vms/1"
      [("id", .jnum 1), ("name", .jstr "vm")] (.jnum 1) "name" rfl).2.1⟩

/-! ### C1: version-gated filter dialects -/

theorem jLookup_ne_apiError (d : JVal) (k msg : String) :
    jLookup d k ≠ .error (.apiError msg) := by
  cases d <;> simp [jLookup]
  rename_i fields
  cases pyGetattr fields k <;> simp

theorem entityApplyDoc_ne_apiError (api : ApiCfg) (e : EntityState) (d : JVal)
    (msg : String) : entityApplyDoc api e d ≠ .error (.apiError msg) := by
  cases d <;> simp [entityApplyDoc]
  rename_i fields
  cases pyGetattr fields (identKey api) <;> simp

theorem entityInit_ne_apiError (api : ApiCfg) (d : JVal) (msg : String) :
    entityInit api d ≠ .error (.apiError msg) := by
  cases d <;> simp [entityInit]
  rename_i fields
  by_cases hx : (pyGetattr fields "id").isSome
  · simp [hx, entityApplyDoc_ne_apiError]
  · simp [hx]
    cases pyGetattr fields "href" <;> simp

theorem exceptMapList_ne_apiError (api : ApiCfg) (items : List JVal)
    (msg : String) :
    exceptMapList (entityInit api) items ≠ .error (.apiError msg) := by
  induction items with
  | nil => simp [exceptMapList]
  | cons hd tl ih =>
      simp only [exceptMapList]
      cases hh : entityInit api hd with
      | error e =>
          simp
          intro he
          rw [he] at hh
          exact entityInit_ne_apiError api hd msg hh
      | ok y =>
          cases ht : exceptMapList (entityInit api) tl with
          | error e =>
              simp
              intro he
              rw [he] at ht
              exact ih ht
          | ok ys => simp

/-- The `SearchResult` construction inside the `try` block of `find_by`
never raises an `APIException` of its own: the fallback trigger can only
come from the GET. -/
theorem mkSearchResult_ne_apiError (api : ApiCfg) (d : JVal) (msg : String) :
    mkSearchResult api d ≠ .error (.apiError msg) := by
  unfold mkSearchResult
  cases hc : jLookup d "count" with
  | error e =>
      simp
      intro he
      rw [he] at hc
      exact jLookup_ne_apiError d "count" msg hc
  | ok cnt =>
  cases hs : jLookup d "subcount" with
  | error e =>
      simp
      intro he
      rw [he] at hs
      exact jLookup_ne_apiError d "subcount" msg hs
  | ok sub =>
  cases hn : jLookup d "name" with
  | error e =>
      simp
      intro he
      rw [he] at hn
      exact jLookup_ne_apiError d "name" msg hn
  | ok nm =>
  cases hr : jLookup d "resources" with
  | error e =>
      simp
      intro he
      rw [he] at hr
      exact jLookup_ne_apiError d "resources" msg hr
  | ok res =>
      cases res <;> simp
      rename_i items
      cases hm : exceptMapList (entityInit api) items with
      | error e =>
          simp
          intro he
          rw [he] at hm
          exact exceptMapList_ne_apiError api items msg hm
      | ok ents => simp

/-- Reduction of `find_by` at exactly version `2.0.0-pre`. -/
theorem findBy_pre (api : ApiCfg) (server : FilterQuery → Except PyErr JVal)
    (params : List (String × JVal)) (hv : api.version = v2_0_0_pre) :
    findBy api server params =
      (match (findBySqlfilter api server params).2 with
       | .error (.apiError _) =>
           ((findBySqlfilter api server params).1
              ++ (findByFilter api server params).1,
            (findByFilter api server params).2)
       | r => ((findBySqlfilter api server params).1, r)) := by
  unfold findBy
  rw [if_pos hv]

/-- Reduction of `find_by` away from version `2.0.0-pre`. -/
theorem findBy_nonpre (api : ApiCfg)
    (server : FilterQuery → Except PyErr JVal)
    (params : List (String × JVal)) (hv : api.version ≠ v2_0_0_pre) :
    findBy api server params =
      if versionInSeries api.version v1_1 || versionGe api.version v2_0_0
      then findByFilter api server params
      else findBySqlfilter api server params := by
  unfold findBy
  rw [if_neg hv]

/-- C1 (amended): `find_by` is version-gated over the two filter dialects,
but at exactly version `2.0.0-pre` the **legacy `sqlfilter` encoding is
attempted first** and the `filter[]` encoding is issued exactly once as
the fallback, only when the sqlfilter attempt raises `APIException` (which
can only originate in the GET, not in the `SearchResult` construction);
in the 1.1 series or at/after 2.0.0 exactly one `filter[]` request is
issued, the values repr-quoted (`key='value'`); for every earlier version
exactly one `sqlfilter` request (`key = 'value'` joined by `AND`) is
issued. -/
theorem find_by_version_gated_dialects (api : ApiCfg)
    (server : FilterQuery → Except PyErr JVal)
    (params : List (String × JVal)) :
    (api.version = v2_0_0_pre →
      isApiErr (findBySqlfilter api server params).2
        = isApiErr (server (.sqlfilter (sqlfilterString params))) ∧
      (isApiErr (findBySqlfilter api server params).2 = false →
        (findBy api server params).1 = [.sqlfilter (sqlfilterString params)]) ∧
      (isApiErr (findBySqlfilter api server params).2 = true →
        (findBy api server params).1 =
          [.sqlfilter (sqlfilterString params),
           .filterArr (filterStrings params)])) ∧
    (api.version ≠ v2_0_0_pre →
      ((versionInSeries api.version v1_1 || versionGe api.version v2_0_0)
          = true →
        (findBy api server params).1 = [.filterArr (filterStrings params)]) ∧
      ((versionInSeries api.version v1_1 || versionGe api.version v2_0_0)
          = false →
        (findBy api server params).1
          = [.sqlfilter (sqlfilterString params)])) := by
  constructor
  · intro hv
    refine ⟨?_, ?_, ?_⟩
    · cases hs : server (.sqlfilter (sqlfilterString params)) with
      | error e =>
          have h1 : (findBySqlfilter api server params).2 = .error e := by
            simp [findBySqlfilter, hs]
          rw [h1]
          cases e <;> rfl
      | ok d =>
          have h1 : (findBySqlfilter api server params).2
              = mkSearchResult api d := by
            simp [findBySqlfilter, hs]
          rw [h1]
          cases hm : mkSearchResult api d with
          | ok r => simp [isApiErr]
          | error e =>
              cases e with
              | apiError m =>
                  exact absurd hm (mkSearchResult_ne_apiError api d m)
              | keyError k => simp [isApiErr]
              | typeError m => simp [isApiErr]
              | valueError m => simp [isApiErr]
              | attributeError m => simp [isApiErr]
              | notImplementedError => simp [isApiErr]
    · intro hne
      rw [findBy_pre api server params hv]
      cases hfst : (findBySqlfilter api server params).2 with
      | ok r => simp [findBySqlfilter]
      | error e =>
          cases e with
          | apiError m => simp [hfst, isApiErr] at hne
          | keyError k => simp [findBySqlfilter]
          | typeError m => simp [findBySqlfilter]
          | valueError m => simp [findBySqlfilter]
          | attributeError m => simp [findBySqlfilter]
          | notImplementedError => simp [findBySqlfilter]
    · intro htrig
      rw [findBy_pre api server params hv]
      cases hfst : (findBySqlfilter api server params).2 with
      | ok r => simp [hfst, isApiErr] at htrig
      | error e =>
          cases e with
          | apiError m => simp [findBySqlfilter, findByFilter]
          | keyError k => simp [hfst, isApiErr] at htrig
          | typeError m => simp [hfst, isApiErr] at htrig
          | valueError m => simp [hfst, isApiErr] at htrig
          | attributeError m => simp [hfst, isApiErr] at htrig
          | notImplementedError => simp [hfst, isApiErr] at htrig
  · intro hv
    constructor
    · intro hcond
      rw [findBy_nonpre api server params hv, if_pos]
      · simp [findByFilter]
      · simpa using hcond
    · intro hcond
      rw [findBy_nonpre api server params hv, if_neg]
      · simp [findBySqlfilter]
      · simpa using hcond

/-- Counterexample for C1 as stated: at version `2.0.0-pre`, even with a
server that answers every request successfully, the first (and only)
request issued by `find_by` is the legacy `sqlfilter` one, not the
`filter[]` one the claim requires; moreover the `filter[]` encoding
repr-quotes values, so its wire form for `name="x"` is not `name=x`. -/
theorem find_by_pre_dialect_order_counterexample :
    (findBy ⟨"http://x/api", v2_0_0_pre⟩
        (fun _ => .ok (.jobj [("count", .jnum 0), ("subcount", .jnum 0),
          ("name", .jstr "vms"), ("resources", .jarr [])]))
        [("name", .jstr "x")]).1.head? ≠
      some (.filterArr (filterStrings [("name", .jstr "x")])) ∧
    filterStrings [("name", .jstr "x")] ≠ ["name=x"] := by
  constructor
  · decide
  · decide

/-- Witness for C1 (amended) at the three versions the spec names: at
`2.0.0-pre` a failing sqlfilter GET yields the two-request fallback trace;
at `1.1` exactly one `filter[]` request; at `1.0` exactly one `sqlfilter`
request. -/
theorem find_by_version_gated_dialects_witness :
    (findBy ⟨"http://x/api", v2_0_0_pre⟩
        (fun _ => .error (.apiError "err")) [("name", .jstr "x")]).1 =
      [.sqlfilter (sqlfilterString [("name", .jstr "x")]),
       .filterArr (filterStrings [("name", .jstr "x")])] ∧
    (findBy ⟨"http://x/api", v1_1⟩
        (fun _ => .error (.apiError "err")) [("name", .jstr "x")]).1 =
      [.filterArr (filterStrings [("name", .jstr "x")])] ∧
    (findBy ⟨"http://x/api", v1_0⟩
        (fun _ => .error (.apiError "err")) [("name", .jstr "x")]).1 =
      [.sqlfilter (sqlfilterString [("name", .jstr "x")])] :=
  ⟨((find_by_version_gated_dialects ⟨"http://x/api", v2_0_0_pre⟩
      (fun _ => .error (.apiError "err")) [("name", .jstr "x")]).1
      rfl).2.2 rfl,
   ((find_by_version_gated_dialects ⟨"http://x/api", v1_1⟩
      (fun _ => .error (.apiError "err")) [("name", .jstr "x")]).2
      (by decide)).1 (by decide),
   ((find_by_version_gated_dialects ⟨"http://x/api", v1_0⟩
      (fun _ => .error (.apiError "err")) [("name", .jstr "x")]).2
      (by decide)).2 (by decide)⟩

/-! ### C2: ActionContainer.reload merges rather than rebuilds -/

/-- `ActionContainer.reload` leaves a name untouched when no declared
action carries it. -/
theorem pyGetattr_acReload_ne (latest : List ActionDecl) (n : String) :
    ∀ attrs : List (String × ActionDecl), (∀ a ∈ latest, n ≠ a.name) →
      pyGetattr (actionContainerReload latest attrs) n = pyGetattr attrs n := by
  induction latest with
  | nil => intro attrs _; rfl
  | cons hd tl ih =>
      intro attrs h
      simp only [actionContainerReload, List.foldl_cons]
      rw [show List.foldl (fun acc a => pySetattr acc a.name a)
            (pySetattr attrs hd.name hd) tl
          = actionContainerReload tl (pySetattr attrs hd.name hd) from rfl,
        ih _ (fun a ha => h a (List.mem_cons_of_mem hd ha)),
        pyGetattr_pySetattr_ne _ _ _ _ (h hd (List.mem_cons_self hd tl))]

/-- Counterexample for C2 as stated: an owner whose first snapshot
declared action `add` and whose latest snapshot declares only `edit`
still exposes `add` after `reload()` — the `Action` set is merged, not
rebuilt, so an action absent from the latest snapshot survives. -/
theorem action_container_reload_merges_counterexample :
    pyGetattr
        (actionContainerReload [⟨"edit", "post", "h2"⟩]
          (actionContainerReload [⟨"add", "post", "h1"⟩] [])) "add" =
      some ⟨"add", "post", "h1"⟩ ∧
    "add" ∉ List.map ActionDecl.name [ActionDecl.mk "edit" "post" "h2"] := by
  constructor
  · decide
  · decide

/-- C2 (amended): after `ActionContainer.reload()` the container exposes
one `Action` per name/method/href triple of the owner's latest snapshot
(for distinct declared names), but the set is merged, not rebuilt: every
action exposed before the reload is still exposed afterwards, so stale
`Action` objects from prior snapshots are not discarded. -/
theorem action_container_reload_exposes_latest (latest : List ActionDecl)
    (attrs : List (String × ActionDecl)) :
    ((latest.map ActionDecl.name).Nodup → ∀ a ∈ latest,
      pyGetattr (actionContainerReload latest attrs) a.name = some a) ∧
    (∀ n, (pyGetattr attrs n).isSome →
      (pyGetattr (actionContainerReload latest attrs) n).isSome) := by
  constructor
  · induction latest generalizing attrs with
    | nil => intro _ a ha; cases ha
    | cons hd tl ih =>
        intro hnodup a ha
        have hnodup0 : (hd.name :: tl.map ActionDecl.name).Nodup := hnodup
        have hnodup1 := List.nodup_cons.mp hnodup0
        simp only [actionContainerReload, List.foldl_cons]
        rcases List.mem_cons.mp ha with heq | hmem
        · subst heq
          rw [show List.foldl (fun acc a2 => pySetattr acc a2.name a2)
                (pySetattr attrs a.name a) tl
              = actionContainerReload tl (pySetattr attrs a.name a) from rfl,
            pyGetattr_acReload_ne tl a.name _
              (fun a2 ha2 hn =>
                hnodup1.1 (hn ▸ List.mem_map_of_mem ActionDecl.name ha2)),
            pyGetattr_pySetattr_self]
        · exact ih _ hnodup1.2 a hmem
  · induction latest generalizing attrs with
    | nil => intro n h; exact h
    | cons hd tl ih =>
        intro n h
        simp only [actionContainerReload, List.foldl_cons]
        exact ih _ n (pyGetattr_pySetattr_isSome _ _ _ _ h)

/-- Witness for C2 (amended): the latest snapshot's `edit` action is
exposed with its declared triple, and the previously exposed `add`
action is still present. -/
theorem action_container_reload_exposes_latest_witness :
    pyGetattr
        (actionContainerReload [⟨"edit", "post", "h2"⟩]
          (actionContainerReload [⟨"add", "post", "h1"⟩] [])) "edit" =
      some ⟨"edit", "post", "h2"⟩ ∧
    (pyGetattr
        (actionContainerReload [⟨"edit", "post", "h2"⟩]
          (actionContainerReload [⟨"add", "post", "h1"⟩] [])) "add").isSome :=
  ⟨(action_container_reload_exposes_latest [⟨"edit", "post", "h2"⟩]
      (actionContainerReload [⟨"add", "post", "h1"⟩] [])).1 (by decide)
      ⟨"edit", "post", "h2"⟩ (List.Mem.head _),
   (action_container_reload_exposes_latest [⟨"edit", "post", "h2"⟩]
      (actionContainerReload [⟨"add", "post", "h1"⟩] [])).2 "add"
      (by decide)⟩

/-! ### C8: action invocation -/

/-- The request body and url an `Action.__call__` builds, read off from a
successful dispatch. -/
theorem actionCall_ok_body (a : ActionDecl) (args : List ActArg)
    (kwargs : List (String × JVal)) (req : ActionRequest)
    (h : actionCall a args kwargs = .ok req) :
    req.url = a.href ∧
    req.body = JVal.jobj
      ([("action", JVal.jstr a.name)] ++
       (if args.isEmpty then
          (if kwargs.isEmpty then []
           else [("resource", JVal.jobj kwargs)])
        else [("resources", JVal.jarr (args.map (fun arg =>
          match arg with
          | .ent e => JVal.jobj [("href", e.href)]
          | .raw v => v)))])) := by
  unfold actionCall at h
  by_cases hp : a.method = "post"
  · rw [if_pos hp] at h
    have hr := (Except.ok.inj h).symm
    subst hr
    cases args <;> cases kwargs <;> simp
  · rw [if_neg hp] at h
    by_cases hd : a.method = "delete"
    · rw [if_pos hd] at h
      have hr := (Except.ok.inj h).symm
      subst hr
      cases args <;> cases kwargs <;> simp
    · rw [if_neg hd] at h
      cases h

/-- C8: an `Action` invocation converts each positional `Entity` argument
to its `{"href": ...}` reference and passes any other positional argument
through unchanged, sending them as a bulk `resources` array; with only
keyword arguments it sends a single `resource` object holding exactly
those fields (and no `resources` key); it dispatches to POST or DELETE
according to the declared method, and any other declared method raises
`NotImplementedError`. -/
theorem action_call_dispatch (a : ActionDecl) (args : List ActArg)
    (kwargs : List (String × JVal)) :
    (∀ req, actionCall a args kwargs = .ok req →
      req.url = a.href ∧
      jLookup req.body "action" = .ok (.jstr a.name) ∧
      (args ≠ [] →
        jLookup req.body "resources" = .ok (.jarr (args.map (fun arg =>
          match arg with
          | .ent e => JVal.jobj [("href", e.href)]
          | .raw v => v))) ∧
        jLookup req.body "resource" = .error (.keyError "resource")) ∧
      (args = [] → kwargs ≠ [] →
        jLookup req.body "resource" = .ok (.jobj kwargs) ∧
        jLookup req.body "resources" = .error (.keyError "resources"))) ∧
    (a.method = "post" →
      ∃ req, actionCall a args kwargs = .ok req ∧ req.verb = .post) ∧
    (a.method = "delete" →
      ∃ req, actionCall a args kwargs = .ok req ∧ req.verb = .delete) ∧
    (a.method ≠ "post" → a.method ≠ "delete" →
      actionCall a args kwargs = .error .notImplementedError) := by
  refine ⟨?_, ?_, ?_, ?_⟩
  · intro req hreq
    obtain ⟨hurl, hbody⟩ := actionCall_ok_body a args kwargs req hreq
    refine ⟨hurl, ?_, ?_, ?_⟩
    · rw [hbody]
      cases args <;> cases kwargs <;> simp [jLookup, pyGetattr]
    · intro hargs
      cases args with
      | nil => exact absurd rfl hargs
      | cons a0 rest =>
          rw [hbody]
          cases kwargs <;>
            simp [jLookup, pyGetattr]
    · intro hargs hkw
      subst hargs
      cases kwargs with
      | nil => exact absurd rfl hkw
      | cons k0 rest =>
          rw [hbody]
          simp [jLookup, pyGetattr]
  · intro hp
    cases hcall : actionCall a args kwargs with
    | ok req =>
        refine ⟨req, rfl, ?_⟩
        unfold actionCall at hcall
        rw [if_pos hp] at hcall
        rw [← Except.ok.inj hcall]
    | error e =>
        unfold actionCall at hcall
        rw [if_pos hp] at hcall
        cases hcall
  · intro hd
    by_cases hp : a.method = "post"
    · rw [hp] at hd
      exact absurd hd (by decide)
    · cases hcall : actionCall a args kwargs with
      | ok req =>
          refine ⟨req, rfl, ?_⟩
          unfold actionCall at hcall
          rw [if_neg hp, if_pos hd] at hcall
          rw [← Except.ok.inj hcall]
      | error e =>
          unfold actionCall at hcall
          rw [if_neg hp, if_pos hd] at hcall
          cases hcall
  · intro hp hd
    unfold actionCall
    rw [if_neg hp, if_neg hd]

/-- Witness for C8: two Entity arguments dispatch a POST whose body holds
a two-element `resources` array of href references; an action declaring an
unsupported method raises `NotImplementedError`. -/
theorem action_call_dispatch_witness :
    (∃ req, actionCall ⟨"add", "post", "http://x/api/vms"⟩
        [.ent ⟨.jstr "h1", none, .jarr [], []⟩,
         .ent ⟨.jstr "h2", none, .jarr [], []⟩] []
      = .ok req ∧ req.verb = .post) ∧
    actionCall ⟨"frob", "get", "http://x/api/vms"⟩ [] []
      = .error .notImplementedError :=
  ⟨(action_call_dispatch ⟨"add", "post", "http://x/api/vms"⟩
      [.ent ⟨.jstr "h1", none, .jarr [], []⟩,
       .ent ⟨.jstr "h2", none, .jarr [], []⟩] []).2.1 rfl,
   (action_call_dispatch ⟨"frob", "get", "http://x/api/vms"⟩ [] []).2.2.2
      (by decide) (by decide)⟩

end RestApi
